import Mathlib

/-!
Shallow embedding of the webview-demo repository: a React Native shell that
renders one remote site in a WebView and relays device capabilities through a
JSON message bridge.  The repository carries three variants of the same
component, embedded here in separate namespaces:

* `Part000`     — src/unnamed/part_000   (location support, hardware back
                  handler, no onError wired on the WebView element);
* `Components`  — src/components/ProductionWebView.tsx (the variant imported
                  by the app entry point);
* `Part001`     — src/unnamed/part_001.

External platform APIs (expo-location, expo-image-picker, expo-document-picker,
expo-notifications, the WebView handle) are modelled by an environment record
giving the outcome of each awaited call; `JSON.parse` is a JavaScript builtin,
modelled by its outcome (`Except String WebViewMessage`: an error when the raw
string is not valid JSON).  Each handler is embedded as a pure function from
the environment to the pair (trace of platform calls made, list of messages
posted into the webview).  Numeric payload fields (coordinates, sizes) are
carried as `Int`/`Nat`: the source performs no arithmetic on them, they are
passed through verbatim.
-/

/-- A parsed inbound bridge message: the envelope produced by JSON.parse.
`type` is `none` when the parsed object has no `type` field (undefined in JS);
`data` likewise. -/
structure MsgData where
  title : Option String
  body  : Option String
  deriving Repr, DecidableEq

/-- Inbound envelope shape, interface WebViewMessage in every variant. -/
structure WebViewMessage where
  type : Option String
  data : Option MsgData
  deriving Repr, DecidableEq

/-- JavaScript nullish coalescing `v ?? d` on an optional string field:
only null/undefined fall back to the default. -/
def jsNullish (v : Option String) (d : String) : String :=
  match v with
  | none => d
  | some s => s

/-- JavaScript logical-or default `v || d` on an optional string field: the
empty string is falsy, so it also falls back to the default. -/
def jsOr (v : Option String) (d : String) : String :=
  match v with
  | none => d
  | some s => if s = "" then d else s

/-- Asset descriptor returned by the document/image pickers.  The source only
reads the fields below (part_000 posts the whole object through). -/
structure Asset where
  name : String
  uri : String
  size : Nat
  mimeType : String
  width : Nat
  height : Nat
  deriving Repr, DecidableEq

/-- Resolved result of a picker/camera call: `canceled` flag plus the optional
assets array (`assets?` may be absent or empty). -/
structure PickerAssets where
  canceled : Bool
  assets : Option (List Asset)
  deriving Repr, DecidableEq

/-- Coordinates of an expo-location position object. -/
structure LocationCoords where
  latitude : Int
  longitude : Int
  accuracy : Int
  deriving Repr, DecidableEq

/-- Position object resolved by Location.getCurrentPositionAsync. -/
structure LocationObject where
  coords : LocationCoords
  timestamp : Int
  deriving Repr, DecidableEq

/-- One platform API invocation, recorded in order in the call trace. -/
inductive PlatformCall where
  | requestForegroundPermissions
  | getCurrentPosition (highAccuracy : Bool)
  | getDocument
  | launchCamera
  | launchImageLibrary
  | scheduleNotification (title body : String)
  | getNotificationPermissions
  | requestNotificationPermissions
  deriving Repr, DecidableEq

/-- The capability a platform call belongs to, named by the inbound message
tag that triggers it (spec section 4.2 treats permission request, capability
proper and reply as one composite action per tag). -/
def PlatformCall.capability : PlatformCall → String
  | .requestForegroundPermissions => "location"
  | .getCurrentPosition _ => "location"
  | .getDocument => "file-picker"
  | .launchCamera => "camera"
  | .launchImageLibrary => "gallery"
  | .scheduleNotification _ _ => "notification"
  | .getNotificationPermissions => "notification"
  | .requestNotificationPermissions => "notification"

/-- The initiating platform call of each recognized tag: the first platform
API a dispatch of that tag always invokes (for location the permission
request; for the others the capability itself). -/
def isInitCall (t : String) (c : PlatformCall) : Bool :=
  match c with
  | .requestForegroundPermissions => t = "location"
  | .launchCamera => t = "camera"
  | .launchImageLibrary => t = "gallery"
  | .getDocument => t = "file-picker"
  | .scheduleNotification _ _ => t = "notification"
  | _ => false

/-- Outbound message posted into the webview (already at envelope level; the
source JSON.stringifies exactly these shapes). -/
inductive OutMsg where
  | location (latitude longitude accuracy timestamp : Int)
  | locationError (message : String)
  | fileSelectedAsset (a : Asset)
  | imageCapturedAsset (a : Asset)
  | imageSelectedAsset (a : Asset)
  | fileSelectedInfo (name uri : String) (size : Nat) (mimeType : String)
  | imageCapturedInfo (uri : String) (width height : Nat)
  | imageSelectedInfo (uri : String) (width height : Nat)
  deriving Repr, DecidableEq

/-- Wire tag of an outbound message. -/
def OutMsg.type : OutMsg → String
  | .location _ _ _ _ => "location"
  | .locationError _ => "location-error"
  | .fileSelectedAsset _ => "file-selected"
  | .imageCapturedAsset _ => "image-captured"
  | .imageSelectedAsset _ => "image-selected"
  | .fileSelectedInfo _ _ _ _ => "file-selected"
  | .imageCapturedInfo _ _ _ => "image-captured"
  | .imageSelectedInfo _ _ _ => "image-selected"

/-- Output of one dispatch: the ordered platform calls made and the messages
posted into the webview. -/
structure RouterOutput where
  calls : List PlatformCall
  posts : List OutMsg
  deriving Repr, DecidableEq

/-- Model of webViewRef.current?.postMessage: posts reach the webview only
when the ref is attached. -/
def postIf (refAttached : Bool) (msgs : List OutMsg) : List OutMsg :=
  if refAttached then msgs else []

/-- Static wiring of the WebView element: which relevant props each variant
passes. -/
structure WebViewWiring where
  hasInjectedJavaScript : Bool
  hasInjectedJavaScriptBeforeContentLoaded : Bool
  hasOnError : Bool
  hasOnMessage : Bool
  deriving Repr, DecidableEq

/-- Observable content of an injected script: whether it defines a stubbed
notification constructor, whether it installs the console-forwarding shim,
and which methods the NativeBridge object it defines carries. -/
structure InjectedScript where
  definesNotificationConstructorStub : Bool
  definesConsoleShim : Bool
  bridgeMethods : List String
  deriving Repr, DecidableEq

namespace BridgeJS

/-- Envelope serialized by NativeBridge.getLocation (identical text in the
variants that define it). -/
def getLocationMessage : WebViewMessage := ⟨some "location", none⟩

/-- Envelope serialized by NativeBridge.takePhoto. -/
def takePhotoMessage : WebViewMessage := ⟨some "camera", none⟩

/-- Envelope serialized by NativeBridge.pickImage. -/
def pickImageMessage : WebViewMessage := ⟨some "gallery", none⟩

/-- Envelope serialized by NativeBridge.pickFile. -/
def pickFileMessage : WebViewMessage := ⟨some "file-picker", none⟩

/-- Envelope serialized by NativeBridge.showNotification(title, body). -/
def showNotificationMessage (title body : String) : WebViewMessage :=
  ⟨some "notification", some ⟨some title, some body⟩⟩

end BridgeJS

namespace Part000

/-- Outcomes of the awaited platform calls for one dispatch of the
src/unnamed/part_000 router.  `perm = none` models a rejection of
requestForegroundPermissionsAsync, `position = none` a rejection of
getCurrentPositionAsync (both land in the catch of handleLocation). -/
structure Env where
  perm : Option String
  position : Option LocationObject
  documentResult : PickerAssets
  cameraResult : PickerAssets
  galleryResult : PickerAssets
  refAttached : Bool
  deriving Repr, DecidableEq

/-- handleLocation, src/unnamed/part_000 lines 72-109: request foreground
permission; on non-granted status post a permission-denied location-error;
otherwise fetch the position at high accuracy and post latitude, longitude,
accuracy and timestamp; any rejection is caught and posts a fetch-failure
location-error. -/
def handleLocation (env : Env) : RouterOutput :=
  match env.perm with
  | none =>
      ⟨[.requestForegroundPermissions],
       postIf env.refAttached [.locationError "Failed to fetch location"]⟩
  | some status =>
      if status ≠ "granted" then
        ⟨[.requestForegroundPermissions],
         postIf env.refAttached [.locationError "Permission denied"]⟩
      else
        match env.position with
        | some loc =>
            ⟨[.requestForegroundPermissions, .getCurrentPosition true],
             postIf env.refAttached
               [.location loc.coords.latitude loc.coords.longitude
                  loc.coords.accuracy loc.timestamp]⟩
        | none =>
            ⟨[.requestForegroundPermissions, .getCurrentPosition true],
             postIf env.refAttached [.locationError "Failed to fetch location"]⟩

/-- handleFilePicker, part_000 lines 111-125: launch the document picker and
post the first asset whole unless the flow was canceled or no asset came back. -/
def handleFilePicker (env : Env) : RouterOutput :=
  ⟨[.getDocument],
   if env.documentResult.canceled = false then
     match env.documentResult.assets with
     | some (a :: _) => postIf env.refAttached [.fileSelectedAsset a]
     | _ => []
   else []⟩

/-- handleCamera, part_000 lines 127-141. -/
def handleCamera (env : Env) : RouterOutput :=
  ⟨[.launchCamera],
   if env.cameraResult.canceled = false then
     match env.cameraResult.assets with
     | some (a :: _) => postIf env.refAttached [.imageCapturedAsset a]
     | _ => []
   else []⟩

/-- handleGallery, part_000 lines 143-157. -/
def handleGallery (env : Env) : RouterOutput :=
  ⟨[.launchImageLibrary],
   if env.galleryResult.canceled = false then
     match env.galleryResult.assets with
     | some (a :: _) => postIf env.refAttached [.imageSelectedAsset a]
     | _ => []
   else []⟩

/-- showNotification, part_000 lines 159-164: one scheduleNotificationAsync
call, no reply posted. -/
def showNotification (title body : String) : RouterOutput :=
  ⟨[.scheduleNotification title body], []⟩

/-- The switch of handleMessage, part_000 lines 172-191 (JS switch over the
string tag; the notification branch applies the nullish defaults of lines
186-189). -/
def route (env : Env) (m : WebViewMessage) : RouterOutput :=
  match m.type with
  | none => ⟨[], []⟩
  | some t =>
      if t = "location" then handleLocation env
      else if t = "camera" then handleCamera env
      else if t = "gallery" then handleGallery env
      else if t = "file-picker" then handleFilePicker env
      else if t = "notification" then
        showNotification (jsNullish (m.data.bind MsgData.title) "Notification")
                         (jsNullish (m.data.bind MsgData.body) "")
      else ⟨[], []⟩

/-- The tags the switch of part_000 recognizes. -/
def recognizedType (t : Option String) : Bool :=
  match t with
  | none => false
  | some s =>
      s = "location" || s = "camera" || s = "gallery" ||
      s = "file-picker" || s = "notification"

/-- Body of handleMessage inside the try: JSON.parse may throw (the error
input), then the switch dispatches. -/
def handleMessageBody (env : Env) (parsed : Except String WebViewMessage) :
    Except String RouterOutput :=
  match parsed with
  | .error e => .error e
  | .ok m => .ok (route env m)

/-- handleMessage, part_000 lines 168-195: the catch swallows the parse error
(console.warn only), so the handler always returns and a malformed input
produces no call and no post. -/
def handleMessage (env : Env) (parsed : Except String WebViewMessage) :
    RouterOutput :=
  match handleMessageBody env parsed with
  | .error _ => ⟨[], []⟩
  | .ok o => o

/-- handleBackPress, part_000 lines 39-45, as (goBack invoked, value
returned): goBack runs and true is returned exactly when canGoBack holds and
the ref is attached. -/
def handleBackPress (canGoBack refAttached : Bool) : Bool × Bool :=
  if canGoBack && refAttached then (true, true) else (false, false)

/-- Host UI state of part_000: isLoading, error and canGoBack hooks. -/
structure State where
  isLoading : Bool
  error : Option String
  canGoBack : Bool
  deriving Repr, DecidableEq

/-- Initial state, part_000 lines 35-37. -/
def stateInit : State := ⟨true, none, false⟩

/-- Events the part_000 WebView element wires: onLoad and
onNavigationStateChange only (lines 244-256; no onError, no onLoadStart). -/
inductive Event where
  | load
  | navState (canGoBack : Bool)
  deriving Repr, DecidableEq

/-- State transition of part_000: onLoad clears isLoading, navigation state
changes update canGoBack; no handler ever writes error. -/
def step : State → Event → State
  | s, .load => { s with isLoading := false }
  | s, .navState b => { s with canGoBack := b }

/-- States reachable from the initial state of part_000. -/
inductive ReachableState : State → Prop where
  | init : ReachableState stateInit
  | step (s : State) (e : Event) : ReachableState s → ReachableState (step s e)

/-- What the component renders, part_000 lines 228-258. -/
inductive Screen where
  | errorView (msg : String)
  | main (showLoading : Bool)
  deriving Repr, DecidableEq

/-- Render function of part_000: a truthy error string replaces the whole
view with the static error view, otherwise the WebView renders with the
loading overlay shown while isLoading holds. -/
def render (s : State) : Screen :=
  match s.error with
  | some e => if e ≠ "" then .errorView e else .main s.isLoading
  | none => .main s.isLoading

/-- WebView props of part_000, lines 244-256: injectedJavaScript and
onMessage are passed; no before-content-loaded script and no onError. -/
def wiring : WebViewWiring := ⟨true, false, false, true⟩

/-- The single script part_000 injects (lines 199-226): no notification
constructor stub, no console shim, a NativeBridge with five methods. -/
def injectedScript : InjectedScript :=
  ⟨false, false,
   ["getLocation", "takePhoto", "pickImage", "pickFile", "showNotification"]⟩

end Part000

/-- Host UI state shared by the components and part_001 variants: isLoading
and the optional error message. -/
structure HostState where
  isLoading : Bool
  error : Option String
  deriving Repr, DecidableEq

/-- Load lifecycle events the components and part_001 variants wire on the
WebView element: onLoadStart, onLoad and onError. -/
inductive HostEvent where
  | loadStart
  | load
  | errorEvent (description : String)
  deriving Repr, DecidableEq

/-- The invariant the spec states for the host flags: a non-null error
implies the loading flag is down. -/
def errorImpliesNotLoading (s : HostState) : Prop :=
  s.error ≠ none → s.isLoading = false

namespace Components

/-- Outcomes of the awaited platform calls for one dispatch of the
src/components/ProductionWebView.tsx router.  A `none` picker outcome models
a rejection of the awaited call (caught: console.error plus an alert). -/
structure Env where
  documentResult : Option PickerAssets
  cameraResult : Option PickerAssets
  galleryResult : Option PickerAssets
  refAttached : Bool
  deriving Repr, DecidableEq

/-- showNotification, ProductionWebView.tsx lines 56-69: one
scheduleNotificationAsync call inside a try whose catch only logs, so the
call trace is the same whether or not the platform call rejects. -/
def showNotification (title body : String) : RouterOutput :=
  ⟨[.scheduleNotification title body], []⟩

/-- handleFilePicker, ProductionWebView.tsx lines 71-96: launch the document
picker; unless canceled or empty, post name, uri, size and mimeType of the
first asset; a rejection is caught and posts nothing. -/
def handleFilePicker (env : Env) : RouterOutput :=
  match env.documentResult with
  | none => ⟨[.getDocument], []⟩
  | some r =>
      ⟨[.getDocument],
       if r.canceled = false then
         match r.assets with
         | some (f :: _) =>
             postIf env.refAttached [.fileSelectedInfo f.name f.uri f.size f.mimeType]
         | _ => []
       else []⟩

/-- handleCamera, ProductionWebView.tsx lines 98-123. -/
def handleCamera (env : Env) : RouterOutput :=
  match env.cameraResult with
  | none => ⟨[.launchCamera], []⟩
  | some r =>
      ⟨[.launchCamera],
       if r.canceled = false then
         match r.assets with
         | some (a :: _) =>
             postIf env.refAttached [.imageCapturedInfo a.uri a.width a.height]
         | _ => []
       else []⟩

/-- handleGallery, ProductionWebView.tsx lines 125-150. -/
def handleGallery (env : Env) : RouterOutput :=
  match env.galleryResult with
  | none => ⟨[.launchImageLibrary], []⟩
  | some r =>
      ⟨[.launchImageLibrary],
       if r.canceled = false then
         match r.assets with
         | some (a :: _) =>
             postIf env.refAttached [.imageSelectedInfo a.uri a.width a.height]
         | _ => []
       else []⟩

/-- The switch of onMessage, ProductionWebView.tsx lines 156-174: four
recognized tags, logical-or defaults for the notification fields (lines
158-161), a default branch that only logs. -/
def route (env : Env) (m : WebViewMessage) : RouterOutput :=
  match m.type with
  | none => ⟨[], []⟩
  | some t =>
      if t = "notification" then
        showNotification (jsOr (m.data.bind MsgData.title) "Notification")
                         (jsOr (m.data.bind MsgData.body) "Notification from webview")
      else if t = "file-picker" then handleFilePicker env
      else if t = "camera" then handleCamera env
      else if t = "gallery" then handleGallery env
      else ⟨[], []⟩

/-- The tags the switch of the components variant recognizes. -/
def recognizedType (t : Option String) : Bool :=
  match t with
  | none => false
  | some s =>
      s = "notification" || s = "file-picker" || s = "camera" || s = "gallery"

/-- Body of onMessage inside the try: JSON.parse may throw, then the switch
dispatches. -/
def handleMessageBody (env : Env) (parsed : Except String WebViewMessage) :
    Except String RouterOutput :=
  match parsed with
  | .error e => .error e
  | .ok m => .ok (route env m)

/-- onMessage, ProductionWebView.tsx lines 152-178: the catch swallows the
parse error (console.error only). -/
def handleMessage (env : Env) (parsed : Except String WebViewMessage) :
    RouterOutput :=
  match handleMessageBody env parsed with
  | .error _ => ⟨[], []⟩
  | .ok o => o

/-- Initial host state, ProductionWebView.tsx lines 28-29. -/
def hostInit : HostState := ⟨true, none⟩

/-- Load lifecycle handlers, ProductionWebView.tsx lines 226-240: onLoadStart
raises isLoading and clears error, onLoad clears both, handleError records
the description and drops isLoading. -/
def hostStep : HostState → HostEvent → HostState
  | _, .loadStart => ⟨true, none⟩
  | _, .load => ⟨false, none⟩
  | _, .errorEvent d => ⟨false, some ("WebView Error: " ++ d)⟩

/-- Host states reachable from the initial state of the components variant. -/
inductive ReachableHost : HostState → Prop where
  | init : ReachableHost hostInit
  | step (s : HostState) (e : HostEvent) :
      ReachableHost s → ReachableHost (hostStep s e)

/-- WebView props of ProductionWebView.tsx, lines 260-282: injectedJavaScript,
onMessage and onError are passed; no before-content-loaded script. -/
def wiring : WebViewWiring := ⟨true, false, true, true⟩

/-- The single script the components variant injects (lines 180-224): the
console-forwarding shim plus a NativeBridge with four methods (no
getLocation); no notification constructor stub. -/
def injectedScript : InjectedScript :=
  ⟨false, true, ["showNotification", "pickFile", "takePhoto", "pickImage"]⟩

end Components

namespace Part001

/-- Outcomes of the awaited notification platform calls for one
showNotification run of src/unnamed/part_001: `scheduleOutcome = none` models
a rejection of scheduleNotificationAsync, `permsGranted = none` a rejection
of getPermissionsAsync; every rejection lands in the catch, which only logs. -/
structure NotifEnv where
  scheduleOutcome : Option String
  permsGranted : Option Bool
  deriving Repr, DecidableEq

/-- showNotification, part_001 lines 69-92: schedule the notification, then
read the permission settings and, when not granted, request permissions; the
surrounding catch only logs. -/
def showNotification (env : NotifEnv) (title body : String) :
    List PlatformCall :=
  match env.scheduleOutcome with
  | none => [.scheduleNotification title body]
  | some _ =>
      match env.permsGranted with
      | none => [.scheduleNotification title body, .getNotificationPermissions]
      | some granted =>
          if granted then
            [.scheduleNotification title body, .getNotificationPermissions]
          else
            [.scheduleNotification title body, .getNotificationPermissions,
             .requestNotificationPermissions]

/-- Initial host state, part_001 lines 27-28. -/
def hostInit : HostState := ⟨true, none⟩

/-- Load lifecycle handlers, part_001 lines 250-264: identical transitions to
the components variant. -/
def hostStep : HostState → HostEvent → HostState
  | _, .loadStart => ⟨true, none⟩
  | _, .load => ⟨false, none⟩
  | _, .errorEvent d => ⟨false, some ("WebView Error: " ++ d)⟩

/-- Host states reachable from the initial state of part_001. -/
inductive ReachableHost : HostState → Prop where
  | init : ReachableHost hostInit
  | step (s : HostState) (e : HostEvent) :
      ReachableHost s → ReachableHost (hostStep s e)

/-- WebView props of part_001, lines 284-307. -/
def wiring : WebViewWiring := ⟨true, false, true, true⟩

/-- The single script part_001 injects (lines 210-248): the console shim plus
a NativeBridge with four methods (no pickFile); no notification constructor
stub. -/
def injectedScript : InjectedScript :=
  ⟨false, true, ["getLocation", "takePhoto", "pickImage", "showNotification"]⟩

end Part001

/-- A concrete part_000 environment used to evaluate theorems: permission
granted, a concrete position, every picker flow canceled, ref attached. -/
def Part000.envCanceled : Part000.Env :=
  ⟨some "granted", some ⟨⟨1, 2, 3⟩, 4⟩, ⟨true, none⟩, ⟨true, none⟩, ⟨true, none⟩, true⟩

/-- A concrete part_000 environment with location permission denied. -/
def Part000.envDenied : Part000.Env :=
  ⟨some "denied", none, ⟨true, none⟩, ⟨true, none⟩, ⟨true, none⟩, true⟩

/-- A concrete components-variant environment: every picker flow canceled,
ref attached. -/
def Components.envSample : Components.Env :=
  ⟨some ⟨true, none⟩, some ⟨true, none⟩, some ⟨true, none⟩, true⟩

/-- C2: for every input string that is not valid JSON (modelled by the error
outcome of JSON.parse), the message handler of both routers returns normally
(the catch swallows the parse error), makes no platform call and posts no
outbound message. -/
theorem c2_malformed_input_silent :
    ∀ (env : Part000.Env) (envC : Components.Env) (e : String),
      Part000.handleMessage env (Except.error e) = ⟨[], []⟩ ∧
      Components.handleMessage envC (Except.error e) = ⟨[], []⟩ := by
  intro env envC e
  exact ⟨rfl, rfl⟩

/-- C6: on a hardware back press with the ref attached, a non-empty in-page
history (canGoBack) makes the handler navigate back and return true; an empty
history makes it return false so the event propagates. -/
theorem c6_back_press (canGoBack refAttached : Bool)
    (href : refAttached = true) :
    (canGoBack = true → Part000.handleBackPress canGoBack refAttached = (true, true)) ∧
    (canGoBack = false → Part000.handleBackPress canGoBack refAttached = (false, false)) := by
  subst href
  refine ⟨fun h => ?_, fun h => ?_⟩ <;> subst h <;> rfl

/-- C6 witness: both branches evaluated at concrete flags. -/
theorem c6_back_press_witness :
    Part000.handleBackPress true true = (true, true) ∧
    Part000.handleBackPress false true = (false, false) :=
  ⟨(c6_back_press true true rfl).1 rfl, (c6_back_press false true rfl).2 rfl⟩

/-- C7: a message that parses but whose tag is not recognized is discarded:
no platform call and no outbound post, in both routers. -/
theorem c7_unrecognized_ignored :
    ∀ (env : Part000.Env) (envC : Components.Env) (m : WebViewMessage),
      (Part000.recognizedType m.type = false → Part000.route env m = ⟨[], []⟩) ∧
      (Components.recognizedType m.type = false → Components.route envC m = ⟨[], []⟩) := by
  intro env envC m
  obtain ⟨t, d⟩ := m
  cases t with
  | none => exact ⟨fun _ => rfl, fun _ => rfl⟩
  | some s =>
      constructor
      · intro h
        simp only [Part000.recognizedType, Bool.or_eq_false_iff,
          decide_eq_false_iff_not] at h
        obtain ⟨⟨⟨⟨h1, h2⟩, h3⟩, h4⟩, h5⟩ := h
        simp [Part000.route, h1, h2, h3, h4, h5]
      · intro h
        simp only [Components.recognizedType, Bool.or_eq_false_iff,
          decide_eq_false_iff_not] at h
        obtain ⟨⟨⟨h1, h2⟩, h3⟩, h4⟩ := h
        simp [Components.route, h1, h2, h3, h4]

/-- C7 witness: a concrete unrecognized tag yields the empty output in both
routers. -/
theorem c7_unrecognized_ignored_witness :
    Part000.route Part000.envCanceled ⟨some "bogus", none⟩ = ⟨[], []⟩ ∧
    Components.route Components.envSample ⟨some "bogus", none⟩ = ⟨[], []⟩ :=
  ⟨(c7_unrecognized_ignored Part000.envCanceled Components.envSample
      ⟨some "bogus", none⟩).1 (by decide),
   (c7_unrecognized_ignored Part000.envCanceled Components.envSample
      ⟨some "bogus", none⟩).2 (by decide)⟩

/-- C9: in the components and part_001 variants, every transition of the load
lifecycle establishes the invariant that a non-null error implies isLoading
is false, and every reachable host state satisfies it. -/
theorem c9_error_implies_not_loading :
    (∀ s e, errorImpliesNotLoading (Components.hostStep s e)) ∧
    (∀ s, Components.ReachableHost s → errorImpliesNotLoading s) ∧
    (∀ s e, errorImpliesNotLoading (Part001.hostStep s e)) ∧
    (∀ s, Part001.ReachableHost s → errorImpliesNotLoading s) := by
  refine ⟨?_, ?_, ?_, ?_⟩
  · intro s e; cases e <;> simp [Components.hostStep, errorImpliesNotLoading]
  · intro s h
    induction h with
    | init => simp [Components.hostInit, errorImpliesNotLoading]
    | step s e _ _ => cases e <;> simp [Components.hostStep, errorImpliesNotLoading]
  · intro s e; cases e <;> simp [Part001.hostStep, errorImpliesNotLoading]
  · intro s h
    induction h with
    | init => simp [Part001.hostInit, errorImpliesNotLoading]
    | step s e _ _ => cases e <;> simp [Part001.hostStep, errorImpliesNotLoading]

/-- C9 witness: the invariant holds at the reachable state reached by a load
failure from the initial state, in both variants. -/
theorem c9_error_implies_not_loading_witness :
    errorImpliesNotLoading
      (Components.hostStep Components.hostInit (HostEvent.errorEvent "boom")) ∧
    errorImpliesNotLoading
      (Part001.hostStep Part001.hostInit (HostEvent.errorEvent "boom")) :=
  ⟨c9_error_implies_not_loading.2.1 _
      (Components.ReachableHost.step _ _ Components.ReachableHost.init),
   c9_error_implies_not_loading.2.2.2 _
      (Part001.ReachableHost.step _ _ Part001.ReachableHost.init)⟩

/-- C10: in the part_000 variant the error state is unreachable: no WebView
onError prop is wired, every reachable state keeps error null, and the render
function never produces the static error view. -/
theorem c10_error_unreachable_part000 :
    (∀ s, Part000.ReachableState s →
        s.error = none ∧ Part000.render s = Part000.Screen.main s.isLoading) ∧
    Part000.wiring.hasOnError = false := by
  constructor
  · intro s h
    have herr : s.error = none := by
      induction h with
      | init => rfl
      | step s e _ ih => cases e <;> simpa [Part000.step] using ih
    refine ⟨herr, ?_⟩
    obtain ⟨l, err, b⟩ := s
    cases herr
    rfl
  · rfl

/-- C10 witness: the invariant evaluated at the initial state and after a
load event. -/
theorem c10_error_unreachable_part000_witness :
    Part000.stateInit.error = none ∧
    Part000.render (Part000.step Part000.stateInit Part000.Event.load) =
      Part000.Screen.main (Part000.step Part000.stateInit Part000.Event.load).isLoading :=
  ⟨(c10_error_unreachable_part000.1 Part000.stateInit Part000.ReachableState.init).1,
   (c10_error_unreachable_part000.1 _
      (Part000.ReachableState.step _ _ Part000.ReachableState.init)).2⟩

/-- C4: a canceled camera, gallery or file-picker flow posts no outbound
message at all in the part_000 router. -/
theorem c4_cancel_no_post :
    ∀ (env : Part000.Env) (d : Option MsgData),
      (env.cameraResult.canceled = true →
          (Part000.route env ⟨some "camera", d⟩).posts = []) ∧
      (env.galleryResult.canceled = true →
          (Part000.route env ⟨some "gallery", d⟩).posts = []) ∧
      (env.documentResult.canceled = true →
          (Part000.route env ⟨some "file-picker", d⟩).posts = []) := by
  intro env d
  refine ⟨fun hc => ?_, fun hc => ?_, fun hc => ?_⟩
  · simp [Part000.route, Part000.handleCamera, hc]
  · simp [Part000.route, Part000.handleGallery, hc]
  · simp [Part000.route, Part000.handleFilePicker, hc]

/-- C4 witness: all three flows, canceled in a concrete environment, post
nothing. -/
theorem c4_cancel_no_post_witness :
    (Part000.route Part000.envCanceled ⟨some "camera", none⟩).posts = [] ∧
    (Part000.route Part000.envCanceled ⟨some "gallery", none⟩).posts = [] ∧
    (Part000.route Part000.envCanceled ⟨some "file-picker", none⟩).posts = [] :=
  ⟨(c4_cancel_no_post Part000.envCanceled none).1 rfl,
   (c4_cancel_no_post Part000.envCanceled none).2.1 rfl,
   (c4_cancel_no_post Part000.envCanceled none).2.2 rfl⟩

/-- C1: for a location request the part_000 router first requests foreground
permission; a non-granted status posts exactly one location-error and no
location message; a granted status fetches the position at high accuracy and
posts exactly one location message carrying latitude, longitude, accuracy and
timestamp, while a rejected fetch posts a location-error instead. -/
theorem c1_location_flow :
    ∀ env : Part000.Env, env.refAttached = true →
      ((Part000.handleLocation env).calls.head? =
          some PlatformCall.requestForegroundPermissions) ∧
      (∀ s, env.perm = some s → s ≠ "granted" →
          (Part000.handleLocation env).posts = [OutMsg.locationError "Permission denied"] ∧
          ((Part000.handleLocation env).posts.countP
              (fun o => o.type == "location-error")) = 1 ∧
          ((Part000.handleLocation env).posts.countP
              (fun o => o.type == "location")) = 0) ∧
      (env.perm = some "granted" →
          PlatformCall.getCurrentPosition true ∈ (Part000.handleLocation env).calls ∧
          (∀ loc, env.position = some loc →
              (Part000.handleLocation env).posts =
                [OutMsg.location loc.coords.latitude loc.coords.longitude
                   loc.coords.accuracy loc.timestamp] ∧
              ((Part000.handleLocation env).posts.countP
                  (fun o => o.type == "location")) = 1) ∧
          (env.position = none →
              (Part000.handleLocation env).posts =
                [OutMsg.locationError "Failed to fetch location"])) := by
  intro env href
  refine ⟨?_, ?_, ?_⟩
  · cases hperm : env.perm with
    | none => simp [Part000.handleLocation, hperm]
    | some s =>
        by_cases hs : s = "granted"
        · subst hs
          cases hpos : env.position <;> simp [Part000.handleLocation, hperm, hpos]
        · simp [Part000.handleLocation, hperm, hs]
  · intro s hp hne
    have hEq : Part000.handleLocation env =
        ⟨[PlatformCall.requestForegroundPermissions],
         [OutMsg.locationError "Permission denied"]⟩ := by
      simp [Part000.handleLocation, hp, hne, href, postIf]
    rw [hEq]
    refine ⟨rfl, by decide, by decide⟩
  · intro hp
    refine ⟨?_, ?_, ?_⟩
    · cases hpos : env.position <;> simp [Part000.handleLocation, hp, hpos]
    · intro loc hloc
      have hEq : Part000.handleLocation env =
          ⟨[PlatformCall.requestForegroundPermissions,
            PlatformCall.getCurrentPosition true],
           [OutMsg.location loc.coords.latitude loc.coords.longitude
              loc.coords.accuracy loc.timestamp]⟩ := by
        simp [Part000.handleLocation, hp, hloc, href, postIf]
      rw [hEq]
      exact ⟨rfl, by simp [List.countP_cons, OutMsg.type]⟩
    · intro hpos
      simp [Part000.handleLocation, hp, hpos, href, postIf]

/-- C1 witness: a denied permission posts exactly the permission-denied
error; a granted permission with a concrete position posts exactly the
location message with its four fields. -/
theorem c1_location_flow_witness :
    (Part000.handleLocation Part000.envDenied).posts =
      [OutMsg.locationError "Permission denied"] ∧
    (Part000.handleLocation Part000.envCanceled).posts =
      [OutMsg.location 1 2 3 4] :=
  ⟨((c1_location_flow Part000.envDenied rfl).2.1 "denied" rfl (by decide)).1,
   (((c1_location_flow Part000.envCanceled rfl).2.2 rfl).2.1 ⟨⟨1, 2, 3⟩, 4⟩ rfl).1⟩

/-- C3 counterexample: dispatching a notification message with no data
through the components router schedules the body "Notification from webview",
not the empty body the claim states. -/
theorem c3_counterexample :
    (Components.route Components.envSample ⟨some "notification", none⟩).calls =
      [PlatformCall.scheduleNotification "Notification" "Notification from webview"] ∧
    (Components.route Components.envSample ⟨some "notification", none⟩).calls ≠
      [PlatformCall.scheduleNotification "Notification" ""] := by
  exact ⟨rfl, by decide⟩

/-- C3 (amended): with no data, the part_000 router schedules title
"Notification" and empty body, while the components router schedules title
"Notification" and body "Notification from webview"; with data.title and
data.body present, part_000 uses exactly those values, and the components
router uses them exactly when both are non-empty (its logical-or defaults
treat the empty string as absent). -/
theorem c3_notification_defaults :
    ∀ (env : Part000.Env) (envC : Components.Env),
      Part000.route env ⟨some "notification", none⟩ =
        ⟨[PlatformCall.scheduleNotification "Notification" ""], []⟩ ∧
      Components.route envC ⟨some "notification", none⟩ =
        ⟨[PlatformCall.scheduleNotification "Notification" "Notification from webview"], []⟩ ∧
      (∀ t b, Part000.route env ⟨some "notification", some ⟨some t, some b⟩⟩ =
          ⟨[PlatformCall.scheduleNotification t b], []⟩) ∧
      (∀ t b, t ≠ "" → b ≠ "" →
          Components.route envC ⟨some "notification", some ⟨some t, some b⟩⟩ =
            ⟨[PlatformCall.scheduleNotification t b], []⟩) := by
  intro env envC
  refine ⟨rfl, rfl, fun t b => rfl, fun t b ht hb => ?_⟩
  simp [Components.route, Components.showNotification, jsOr, ht, hb]

/-- C3 witness: concrete non-empty title and body pass through the components
router unchanged. -/
theorem c3_notification_defaults_witness :
    Components.route Components.envSample
        ⟨some "notification", some ⟨some "T", some "B"⟩⟩ =
      ⟨[PlatformCall.scheduleNotification "T" "B"], []⟩ :=
  (c3_notification_defaults Part000.envCanceled Components.envSample).2.2.2
    "T" "B" (by decide) (by decide)

/-- C5: a recognized inbound message makes the part_000 router invoke exactly
one platform capability — the call trace is non-empty, every call in it
belongs to the capability named by the tag, and the initiating call of that
capability occurs exactly once; likewise the part_001 showNotification run
schedules exactly one notification and touches only the notification
capability. -/
theorem c5_one_capability_per_message :
    (∀ (env : Part000.Env) (t : String) (d : Option MsgData),
        Part000.recognizedType (some t) = true →
        (Part000.route env ⟨some t, d⟩).calls ≠ [] ∧
        (∀ c ∈ (Part000.route env ⟨some t, d⟩).calls, c.capability = t) ∧
        (Part000.route env ⟨some t, d⟩).calls.countP (isInitCall t) = 1) ∧
    (∀ (env : Part001.NotifEnv) (title body : String),
        Part001.showNotification env title body ≠ [] ∧
        (∀ c ∈ Part001.showNotification env title body,
            c.capability = "notification") ∧
        (Part001.showNotification env title body).countP
            (isInitCall "notification") = 1) := by
  constructor
  · intro env t d hrec
    simp only [Part000.recognizedType, Bool.or_eq_true, decide_eq_true_eq] at hrec
    rcases hrec with ((((h | h) | h) | h) | h) <;> subst h
    · have hcalls : (Part000.route env ⟨some "location", d⟩).calls =
          [PlatformCall.requestForegroundPermissions] ∨
          (Part000.route env ⟨some "location", d⟩).calls =
          [PlatformCall.requestForegroundPermissions,
           PlatformCall.getCurrentPosition true] := by
        cases hperm : env.perm with
        | none => left; simp [Part000.route, Part000.handleLocation, hperm]
        | some s =>
            by_cases hs : s = "granted"
            · subst hs
              cases hpos : env.position <;>
                (right; simp [Part000.route, Part000.handleLocation, hperm, hpos])
            · left; simp [Part000.route, Part000.handleLocation, hperm, hs]
      rcases hcalls with h | h <;> rw [h] <;>
        exact ⟨by decide, by decide, by decide⟩
    · have h : (Part000.route env ⟨some "camera", d⟩).calls =
          [PlatformCall.launchCamera] := rfl
      rw [h]; exact ⟨by decide, by decide, by decide⟩
    · have h : (Part000.route env ⟨some "gallery", d⟩).calls =
          [PlatformCall.launchImageLibrary] := rfl
      rw [h]; exact ⟨by decide, by decide, by decide⟩
    · have h : (Part000.route env ⟨some "file-picker", d⟩).calls =
          [PlatformCall.getDocument] := rfl
      rw [h]; exact ⟨by decide, by decide, by decide⟩
    · have h : (Part000.route env ⟨some "notification", d⟩).calls =
          [PlatformCall.scheduleNotification
             (jsNullish (d.bind MsgData.title) "Notification")
             (jsNullish (d.bind MsgData.body) "")] := rfl
      rw [h]
      refine ⟨by simp, ?_, ?_⟩
      · intro c hc
        simp only [List.mem_singleton] at hc
        subst hc
        rfl
      · simp [List.countP_cons, isInitCall]
  · intro env title body
    have hlists : Part001.showNotification env title body =
        [PlatformCall.scheduleNotification title body] ∨
        Part001.showNotification env title body =
        [PlatformCall.scheduleNotification title body,
         PlatformCall.getNotificationPermissions] ∨
        Part001.showNotification env title body =
        [PlatformCall.scheduleNotification title body,
         PlatformCall.getNotificationPermissions,
         PlatformCall.requestNotificationPermissions] := by
      cases hs : env.scheduleOutcome with
      | none => left; simp [Part001.showNotification, hs]
      | some v =>
          cases hp : env.permsGranted with
          | none => right; left; simp [Part001.showNotification, hs, hp]
          | some granted =>
              cases granted
              · right; right; simp [Part001.showNotification, hs, hp]
              · right; left; simp [Part001.showNotification, hs, hp]
    rcases hlists with h | h | h <;> rw [h] <;>
      refine ⟨by simp, ?_, by simp [List.countP_cons, isInitCall]⟩ <;>
      · intro c hc
        simp only [List.mem_cons, List.mem_singleton, List.not_mem_nil] at hc
        rcases hc with hc | hc | hc | hc <;> first
          | (subst hc; rfl)
          | exact hc.elim

/-- C5 witness: a concrete camera dispatch launches the camera exactly once,
and a concrete part_001 notification run schedules exactly one notification. -/
theorem c5_one_capability_per_message_witness :
    (Part000.route Part000.envCanceled ⟨some "camera", none⟩).calls.countP
        (isInitCall "camera") = 1 ∧
    (Part001.showNotification ⟨some "id", some true⟩ "T" "B").countP
        (isInitCall "notification") = 1 :=
  ⟨(c5_one_capability_per_message.1 Part000.envCanceled "camera" none
      (by decide)).2.2,
   (c5_one_capability_per_message.2 ⟨some "id", some true⟩ "T" "B").2.2⟩

/-- C8 counterexample: no variant passes a before-content-loaded script to
the WebView, none defines a notification constructor stub, and only part_000
exposes all five bridge methods (the components script lacks getLocation,
the part_001 script lacks pickFile). -/
theorem c8_counterexample :
    Part000.wiring.hasInjectedJavaScriptBeforeContentLoaded = false ∧
    Components.wiring.hasInjectedJavaScriptBeforeContentLoaded = false ∧
    Part001.wiring.hasInjectedJavaScriptBeforeContentLoaded = false ∧
    Part000.injectedScript.definesNotificationConstructorStub = false ∧
    Components.injectedScript.definesNotificationConstructorStub = false ∧
    Part001.injectedScript.definesNotificationConstructorStub = false ∧
    Components.injectedScript.bridgeMethods.contains "getLocation" = false ∧
    Part001.injectedScript.bridgeMethods.contains "pickFile" = false := by
  decide

/-- C8 (amended): each variant injects exactly one script, the
injectedJavaScript prop run after load; no before-content script and no
notification constructor stub exist.  The script defines NativeBridge whose
methods each serialize a fixed typed envelope and post it outward: part_000
exposes getLocation, takePhoto, pickImage, pickFile and showNotification with
no console shim, the components variant exposes showNotification, pickFile,
takePhoto and pickImage plus the console-forwarding shim, and part_001
exposes getLocation, takePhoto, pickImage and showNotification plus the
shim.  Each serialized envelope dispatches to the matching part_000 handler. -/
theorem c8_single_injected_script :
    (Part000.wiring.hasInjectedJavaScript = true ∧
     Part000.wiring.hasInjectedJavaScriptBeforeContentLoaded = false ∧
     Part000.injectedScript.definesNotificationConstructorStub = false ∧
     Part000.injectedScript.definesConsoleShim = false ∧
     Part000.injectedScript.bridgeMethods =
       ["getLocation", "takePhoto", "pickImage", "pickFile", "showNotification"]) ∧
    (Components.wiring.hasInjectedJavaScript = true ∧
     Components.wiring.hasInjectedJavaScriptBeforeContentLoaded = false ∧
     Components.injectedScript.definesNotificationConstructorStub = false ∧
     Components.injectedScript.definesConsoleShim = true ∧
     Components.injectedScript.bridgeMethods =
       ["showNotification", "pickFile", "takePhoto", "pickImage"]) ∧
    (Part001.wiring.hasInjectedJavaScript = true ∧
     Part001.wiring.hasInjectedJavaScriptBeforeContentLoaded = false ∧
     Part001.injectedScript.definesNotificationConstructorStub = false ∧
     Part001.injectedScript.definesConsoleShim = true ∧
     Part001.injectedScript.bridgeMethods =
       ["getLocation", "takePhoto", "pickImage", "showNotification"]) ∧
    (BridgeJS.getLocationMessage.type = some "location" ∧
     BridgeJS.takePhotoMessage.type = some "camera" ∧
     BridgeJS.pickImageMessage.type = some "gallery" ∧
     BridgeJS.pickFileMessage.type = some "file-picker" ∧
     ∀ title body, BridgeJS.showNotificationMessage title body =
       ⟨some "notification", some ⟨some title, some body⟩⟩) ∧
    (∀ env : Part000.Env,
       Part000.route env BridgeJS.getLocationMessage = Part000.handleLocation env ∧
       Part000.route env BridgeJS.takePhotoMessage = Part000.handleCamera env ∧
       Part000.route env BridgeJS.pickImageMessage = Part000.handleGallery env ∧
       Part000.route env BridgeJS.pickFileMessage = Part000.handleFilePicker env ∧
       ∀ title body, Part000.route env (BridgeJS.showNotificationMessage title body) =
         Part000.showNotification title body) := by
  refine ⟨⟨rfl, rfl, rfl, rfl, rfl⟩, ⟨rfl, rfl, rfl, rfl, rfl⟩,
    ⟨rfl, rfl, rfl, rfl, rfl⟩, ⟨rfl, rfl, rfl, rfl, fun _ _ => rfl⟩, ?_⟩
  intro env
  exact ⟨rfl, rfl, rfl, rfl, fun _ _ => rfl⟩
